import Mathlib

/-!
Shallow embedding of the binding-aware notification routing and
interactive-command resolution engine of the botkube repository.

The embedding covers:
* the channel registry of the `SocketSlack` bot (`NotificationsEnabled`,
  `SetNotificationsEnabled`, `getChannels`) — the Go map snapshot is
  modelled as an association list in iteration order;
* the notification router (`getChannelsToNotifyForEvent`,
  `getChannelsToNotify`);
* the interactive action resolver (`resolveBlockActionCommand`);
* the delivery path (`send`, `getThreadOptionIfNeeded`);
* the configuration validators (`validateSourceBindings`,
  `validateExecutorBindings`, `namespacesStructValidator`,
  `socketSlackStructTokenValidator`) and the critical/warning routing
  performed by `ValidateStruct`.
-/

namespace Botkube

/-- Modelled from the spec: the channel/binding configuration
(`channelConfigByName` and the embedded `ChannelBindingsByName`), which is
defined outside the provided sources.  Per the spec a channel configuration
carries an identity (name), an optional display alias, a runtime-mutable
`notify` flag and the source/executor binding name lists. -/
structure ChannelBindings where
  sources : List String
  executors : List String
  deriving DecidableEq

/-- Modelled from the spec: see `ChannelBindings`. -/
structure ChannelConfigByName where
  name : String
  aliasName : String
  notify : Bool
  bindings : ChannelBindings
  deriving DecidableEq

/-- Modelled from the spec: `Identifier()` of a by-name channel
configuration is its name. -/
def ChannelConfigByName.identifier (c : ChannelConfigByName) : String :=
  c.name

/-- The channel-registry snapshot (`b.getChannels()`), a Go map from channel
name to configuration, modelled as an association list whose order is the
map's iteration order. -/
abbrev Registry := List (String × ChannelConfigByName)

/-- Go map lookup `channels[channelName]` over the association-list model. -/
def lookupChannel : Registry → String → Option ChannelConfigByName
  | [], _ => none
  | p :: rest, channelName =>
      if p.1 = channelName then some p.2 else lookupChannel rest channelName

/-- Modelled from the spec: `execute.ErrNotificationsNotConfigured`, the
`ChannelNotFound` error value, defined outside the provided sources. -/
def errNotificationsNotConfigured : String :=
  "notifications not configured for this channel"

/-- `NotificationsEnabled` returns the current notification status for a
given channel name; a missing channel reads as `false`. -/
def notificationsEnabled (reg : Registry) (channelName : String) : Bool :=
  match lookupChannel reg channelName with
  | none => false
  | some channel => channel.notify

/-- The write-back step of `SetNotificationsEnabled`: the looked-up entry
has its `notify` field replaced and is stored back under the same key
(`channels[channelName] = channel`). -/
def updateNotify (reg : Registry) (channelName : String) (enabled : Bool) :
    Registry :=
  reg.map fun p =>
    if p.1 = channelName then (p.1, { p.2 with notify := enabled }) else p

/-- `SetNotificationsEnabled` as a state transformer: it returns the error
or unit result together with the registry observed by subsequent reads.
When the channel is missing the function returns
`execute.ErrNotificationsNotConfigured` before any mutation. -/
def setNotificationsEnabled (reg : Registry) (channelName : String)
    (enabled : Bool) : Except String Unit × Registry :=
  match lookupChannel reg channelName with
  | none => (Except.error errNotificationsNotConfigured, reg)
  | some _ => (Except.ok (), updateNotify reg channelName enabled)

/-- The event value consumed by the router; only the fields the routing
logic reads are carried (`Channel` override and the cluster name). -/
structure Event where
  channel : String
  cluster : String := ""
  deriving DecidableEq

/-- Modelled from the spec: `sliceutil.Intersect`, defined outside the
provided sources.  Per the spec it decides non-empty set intersection of
two name lists, order-independently. -/
def intersect (a b : List String) : Bool :=
  a.any fun x => b.contains x

/-- `getChannelsToNotify`: iterate the channel-registry snapshot, skip
channels whose `notify` flag is off, skip channels whose source bindings do
not intersect the event's source bindings, and collect the identifiers of
the rest in iteration order. -/
def getChannelsToNotify (reg : Registry) (sourceBindings : List String) :
    List String :=
  reg.filterMap fun p =>
    if !p.2.notify then none
    else if !intersect sourceBindings p.2.bindings.sources then none
    else some p.2.identifier

/-- `getChannelsToNotifyForEvent`: a non-empty `event.Channel` is an
explicit routing override returning exactly that channel; otherwise the
registry-based routing decides. -/
def getChannelsToNotifyForEvent (reg : Registry) (event : Event)
    (sourceBindings : List String) : List String :=
  if event.channel ≠ "" then [event.channel]
  else getChannelsToNotify reg sourceBindings

/-- Modelled from the spec: the `command.Origin` enumeration (Typed,
ButtonClick, MultiSelectChange, SelectChange, PlainTextInput, Automation,
Unknown), defined outside the provided sources. -/
inductive Origin where
  | typed
  | buttonClick
  | multiSelectChange
  | selectChange
  | plainTextInput
  | automation
  | unknown
  deriving DecidableEq

/-- Model of the slack-go SDK's selected option: only the `Value` field is
read by the resolver. -/
structure SelectedOption where
  value : String
  deriving DecidableEq

/-- Model of the slack-go SDK's `slack.BlockAction`, restricted to the
fields the resolver reads: the action type tag, the action and block
identifiers, the raw value and the selection payloads. -/
structure BlockAction where
  typeTag : String
  actionID : String
  blockID : String
  value : String
  selectedOptions : List SelectedOption
  selectedOption : SelectedOption
  deriving DecidableEq

/-- Model of Go's `%q` verb (`strconv.Quote`) over the printable
characters the claims exercise: the string is wrapped in double quotes and
any embedded backslash or double quote is backslash-escaped. -/
def goQuote (s : String) : String :=
  "\"" ++ String.join (s.toList.map fun c =>
    if c = '"' then "\\\""
    else if c = '\\' then "\\\\"
    else String.singleton c) ++ "\""

/-- `resolveBlockActionCommand`: the per-kind resolution of an interaction
payload into a generic command and origin.  The default command is the
payload's raw value with origin Unknown; each recognized action type
overrides it per the switch in the source. -/
def resolveBlockActionCommand (act : BlockAction) : String × Origin :=
  if act.typeTag = "multi_static_select" then
    (act.actionID ++ " "
       ++ String.intercalate "," (act.selectedOptions.map (·.value)),
     Origin.multiSelectChange)
  else if act.typeTag = "static_select" then
    (act.actionID ++ " " ++ act.selectedOption.value, Origin.selectChange)
  else if act.typeTag = "button" then
    (act.value, Origin.buttonClick)
  else if act.typeTag = "plain_text_input" then
    (act.blockID ++ goQuote act.value.trim, Origin.plainTextInput)
  else
    (act.value, Origin.unknown)

/-- A field error reported through `sl.ReportError`: the field (and field
name) it concerns, the validation tag, and the parameter string. -/
structure Report where
  field : String
  tag : String
  param : String
  deriving DecidableEq

/-- Tag constant `nsIncludeTag`. -/
def nsIncludeTag : String := "ns-include-regex"

/-- Tag constant `invalidBindingTag`. -/
def invalidBindingTag : String := "invalid_binding"

/-- Constant `appTokenPrefix`. -/
def appTokenPrefixV : String := "xapp-"

/-- Constant `botTokenPrefix`. -/
def botTokenPrefixV : String := "xoxb-"

/-- The `warnsOnlyTags` set: tags routed to warnings instead of
criticals. -/
def warnsOnlyTags : List String := [nsIncludeTag]

/-- The validation result: critical errors and warnings. -/
structure ValidateResult where
  criticals : List Report
  warnings : List Report
  deriving DecidableEq

/-- The routing loop of `ValidateStruct`: each reported error whose tag is
in `warnsOnlyTags` is appended to the warnings, every other one to the
criticals, in report order and without short-circuiting. -/
def partitionReports (errs : List Report) : ValidateResult :=
  { criticals := errs.filter fun e => !warnsOnlyTags.contains e.tag
    warnings := errs.filter fun e => warnsOnlyTags.contains e.tag }

/-- `validateSourceBindings`: for each bound source name, in binding-list
order, report an `invalid_binding` error when the name is not a key of the
global sources mapping (modelled by its key list). -/
def validateSourceBindings (sources : List String) (bindings : List String) :
    List Report :=
  bindings.filterMap fun source =>
    if sources.contains source then none
    else some ⟨source, invalidBindingTag, "Config.Sources"⟩

/-- `validateExecutorBindings`: the same rule against the global executors
mapping. -/
def validateExecutorBindings (executors : List String)
    (bindings : List String) : List Report :=
  bindings.filterMap fun executor =>
    if executors.contains executor then none
    else some ⟨executor, invalidBindingTag, "Config.Executors"⟩

/-- Modelled from the spec: `config.AllNamespaceIndicator`, the
all-namespaces indicator constant, defined outside the provided sources. -/
def AllNamespaceIndicator : String := "all"

/-- `namespacesStructValidator` on the `Include` list: lists shorter than
two entries pass; otherwise one `ns-include-regex` error is reported iff
the all-namespaces indicator is present. -/
def namespacesStructValidator (ns : List String) : List Report :=
  if ns.length < 2 then []
  else if ns.contains AllNamespaceIndicator then
    [⟨"Include", nsIncludeTag, ""⟩]
  else []

/-- Modelled from the spec and the validator's field accesses:
`config.SocketSlack` restricted to the fields the token validator reads. -/
structure SocketSlack where
  enabled : Bool
  appToken : String
  botToken : String
  deriving DecidableEq

/-- Parameter text of the bot-token prefix error. -/
def botTokenMsg : String :=
  "must have the xoxb- prefix. Learn more at https://botkube.io/docs/installation/socketslack/#obtain-bot-token"

/-- Parameter text of the app-token prefix error. -/
def appTokenMsg : String :=
  "must have the xapp- prefix. Learn more at https://botkube.io/docs/installation/socketslack/#generate-and-obtain-app-level-token"

/-- Model of Go's `strings.HasPrefix` used by the token validator,
computed over the character lists so that it evaluates by kernel
reduction. -/
def hasPrefixStr (s pre : String) : Bool :=
  pre.toList.isPrefixOf s.toList

/-- `socketSlackStructTokenValidator`: a disabled integration passes; an
enabled one reports a required error for each empty token and a prefix
error for each token lacking its expected prefix, with no early return
between the checks. -/
def socketSlackStructTokenValidator (slackCfg : SocketSlack) : List Report :=
  if !slackCfg.enabled then []
  else
    (if slackCfg.appToken = "" then [⟨"AppToken", "required", ""⟩] else [])
    ++ (if slackCfg.botToken = "" then [⟨"BotToken", "required", ""⟩] else [])
    ++ (if !hasPrefixStr slackCfg.botToken botTokenPrefixV then
          [⟨"BotToken", "invalid_slack_token", botTokenMsg⟩] else [])
    ++ (if !hasPrefixStr slackCfg.appToken appTokenPrefixV then
          [⟨"AppToken", "invalid_slack_token", appTokenMsg⟩] else [])

/-- The `socketSlackMessage` metadata of a handled interaction; the
opaque block-action state is modelled as an optional string. -/
structure SocketSlackMessage where
  text : String := ""
  channel : String := ""
  threadTimeStamp : String := ""
  user : String := ""
  triggerID : String := ""
  commandOrigin : Origin := Origin.unknown
  state : Option String := none
  responseURL : String := ""
  blockID : String := ""
  deriving DecidableEq

/-- Model of the slack-go SDK's share info: the thread timestamp of one
public share of a file. -/
structure ShareInfo where
  ts : String
  deriving DecidableEq

/-- Model of the slack-go SDK's `slack.File`: its public-shares map from
channel id to share list, as an association list in iteration order. -/
structure SlackFile where
  sharesPublic : List (String × List ShareInfo)
  deriving DecidableEq

/-- `getThreadOptionIfNeeded`: a message from a thread answers in that
thread; otherwise, when the content went out as a file, the first
public share in iteration order whose first entry has a non-empty
timestamp is targeted; otherwise no thread option is produced. -/
def getThreadOptionIfNeeded (event : SocketSlackMessage)
    (file : Option SlackFile) : Option String :=
  if event.threadTimeStamp ≠ "" then some event.threadTimeStamp
  else
    match file with
    | none => none
    | some f =>
        f.sharesPublic.findSome? fun share =>
          match share.2 with
          | [] => none
          | s0 :: _ => if s0.ts ≠ "" then some s0.ts else none

/-- Modelled from the spec: the kind of an interactive message; `popup`
corresponds to the modal kind and `base` to every other kind (and to the
Go zero value produced by the stripping assignment). -/
inductive MessageType where
  | base
  | popup
  deriving DecidableEq

/-- Modelled from the spec: `interactive.Message`, defined outside the
provided sources, restricted to what `send` reads — its kind, its
interactive sections, its plain-text-input elements and the
only-visible-for-you / replace-original flags.  Field defaults are the Go
zero values used by the stripping assignment. -/
structure InteractiveMessage where
  msgType : MessageType := MessageType.base
  sections : List String := []
  plaintextInputs : List String := []
  onlyVisibleForYou : Bool := false
  replaceOriginal : Bool := false
  deriving DecidableEq

/-- Modelled from the spec: the fixed message-size threshold
(`slackMaxMessageSize`), defined outside the provided sources. -/
def slackMaxMessageSize : Nat := 3001

/-- The observable outcome of `send`: an error, an opened modal, or a
posted message (ephemeral or broadcast) with its thread target, its
replace-original directive and whether the content went through the
file-upload path. -/
inductive SendOutcome where
  | sendError (msg : String)
  | modal (channel : String) (view : InteractiveMessage)
  | posted (ephemeral : Bool) (channel : String) (user : String)
      (msg : InteractiveMessage) (threadTs : Option String)
      (replaceOriginal : Bool) (fileUploaded : Bool)
  deriving DecidableEq

/-- The message posted to the channel by an outcome, when one was. -/
def SendOutcome.postedMessage : SendOutcome → Option InteractiveMessage
  | SendOutcome.posted _ _ _ msg _ _ _ => some msg
  | _ => none

/-- Whether the outcome went through the file-upload path. -/
def SendOutcome.usedFileUpload : SendOutcome → Bool
  | SendOutcome.posted _ _ _ _ _ _ fileUploaded => fileUploaded
  | _ => false

/-- `send`, parametrized over the external renderer (`RenderMessage`,
whose output length models Go's `len`) and over the file the external
upload call returns.  An empty rendering is an error; a rendering at or
above `slackMaxMessageSize` goes through the file-upload path and the
response is replaced by one retaining only its plain-text inputs; a popup
with a trigger id opens a modal; otherwise the message is posted with its
thread option, ephemerally when only-visible-for-you. -/
def send (render : InteractiveMessage → String) (uploaded : SlackFile)
    (event : SocketSlackMessage) (resp : InteractiveMessage) : SendOutcome :=
  let markdown := render resp
  if markdown.length = 0 then SendOutcome.sendError "empty response"
  else
    let tooLong := slackMaxMessageSize ≤ markdown.length
    let file : Option SlackFile := if tooLong then some uploaded else none
    let resp1 : InteractiveMessage :=
      if tooLong then { plaintextInputs := resp.plaintextInputs } else resp
    if resp1.msgType = MessageType.popup ∧ event.triggerID ≠ "" then
      SendOutcome.modal event.channel resp1
    else
      let threadTs := getThreadOptionIfNeeded event file
      let replaceO := resp1.replaceOriginal && decide (event.responseURL ≠ "")
      if resp1.onlyVisibleForYou then
        SendOutcome.posted true event.channel event.user resp1 threadTs
          replaceO tooLong
      else
        SendOutcome.posted false event.channel event.user resp1 threadTs
          replaceO tooLong

/-- Lexicographic character order on timestamp strings, computed over the
character lists; on Slack's fixed-width numeric timestamps it coincides
with chronological order, so it reads the spec's earliest as smallest. -/
def tsCharsLt : List Char → List Char → Bool
  | [], [] => false
  | [], _ :: _ => true
  | _ :: _, [] => false
  | a :: as, b :: bs =>
      if Nat.blt a.toNat b.toNat then true
      else if Nat.blt b.toNat a.toNat then false
      else tsCharsLt as bs

/-- Timestamp order on strings; see `tsCharsLt`. -/
def tsLt (a b : String) : Bool :=
  tsCharsLt a.data b.data

/-- Reference definition following the spec's words for claim C9: the
earliest — smallest in timestamp order — non-empty timestamp among all
public shares of the file. -/
def specEarliestPublicShareTs (f : SlackFile) : Option String :=
  ((f.sharesPublic.map Prod.snd).flatten.filterMap
      fun s => if s.ts = "" then none else some s.ts).foldl
    (fun acc t =>
      match acc with
      | none => some t
      | some a => if tsLt t a then some t else some a) none

/-- The first public share timestamp in iteration order, stated as the
head of the per-channel first entries carrying non-empty timestamps. -/
def firstPublicShareTs (f : SlackFile) : Option String :=
  (f.sharesPublic.filterMap fun share =>
    match share.2 with
    | [] => none
    | s0 :: _ => if s0.ts ≠ "" then some s0.ts else none).head?

theorem lookup_updateNotify_same (reg : Registry) (channelName : String)
    (enabled : Bool) :
    lookupChannel (updateNotify reg channelName enabled) channelName
      = (lookupChannel reg channelName).map
          (fun ch => { ch with notify := enabled }) := by
  induction reg with
  | nil => rfl
  | cons p rest ih =>
      by_cases h : p.1 = channelName
      · simp [updateNotify, lookupChannel, h]
      · simpa [updateNotify, lookupChannel, h] using ih

theorem lookup_updateNotify_other (reg : Registry) (channelName other : String)
    (enabled : Bool) (h : other ≠ channelName) :
    lookupChannel (updateNotify reg channelName enabled) other
      = lookupChannel reg other := by
  induction reg with
  | nil => rfl
  | cons p rest ih =>
      simp only [updateNotify, List.map_cons] at ih ⊢
      by_cases hp : p.1 = channelName
      · simp [lookupChannel, hp, h, Ne.symm h, ih]
      · by_cases ho : p.1 = other <;>
          simp [lookupChannel, hp, ho, h, Ne.symm h, ih]

theorem mem_getChannelsToNotify (reg : Registry) (sourceBindings : List String)
    (ch : String) :
    ch ∈ getChannelsToNotify reg sourceBindings ↔
      ∃ p ∈ reg, p.2.notify = true
        ∧ intersect sourceBindings p.2.bindings.sources = true
        ∧ p.2.identifier = ch := by
  unfold getChannelsToNotify
  rw [List.mem_filterMap]
  constructor
  · rintro ⟨p, hp, hf⟩
    refine ⟨p, hp, ?_⟩
    cases hn : p.2.notify <;>
      cases hi : intersect sourceBindings p.2.bindings.sources <;>
        simp [hn, hi] at hf ⊢
    exact hf
  · rintro ⟨p, hp, hn, hi, hid⟩
    exact ⟨p, hp, by simp [hn, hi, hid]⟩

/-- Claim C1: the notification router's target list equals the reference
definition: a non-empty `event.Channel` routes to exactly that one channel
regardless of notify flags or bindings; otherwise a channel is targeted iff
its notify flag is true and its source bindings intersect the event's
originating source bindings, so a channel with notify off is never
included. -/
theorem getChannelsToNotifyForEvent_spec (reg : Registry) (event : Event)
    (sourceBindings : List String) :
    (event.channel ≠ "" →
      getChannelsToNotifyForEvent reg event sourceBindings = [event.channel])
    ∧ (event.channel = "" →
      ∀ ch, ch ∈ getChannelsToNotifyForEvent reg event sourceBindings ↔
        ∃ p ∈ reg, p.2.notify = true
          ∧ intersect sourceBindings p.2.bindings.sources = true
          ∧ p.2.identifier = ch) := by
  constructor
  · intro h
    simp [getChannelsToNotifyForEvent, h]
  · intro h ch
    rw [getChannelsToNotifyForEvent, if_neg (by simp [h])]
    exact mem_getChannelsToNotify reg sourceBindings ch

/-- Witness for claim C1, instantiating the spec's routing example: with
channel A (notify on) and channel B (notify off), both bound to source
`k8s-events`, an event without explicit channel reaches A and not B, while
an event with explicit channel X reaches exactly X. -/
theorem getChannelsToNotifyForEvent_spec_witness :
    ("A" ∈ getChannelsToNotifyForEvent
        [("A", ⟨"A", "", true, ⟨["k8s-events"], []⟩⟩),
         ("B", ⟨"B", "", false, ⟨["k8s-events"], []⟩⟩)]
        ⟨"", ""⟩ ["k8s-events"])
    ∧ ¬ ("B" ∈ getChannelsToNotifyForEvent
        [("A", ⟨"A", "", true, ⟨["k8s-events"], []⟩⟩),
         ("B", ⟨"B", "", false, ⟨["k8s-events"], []⟩⟩)]
        ⟨"", ""⟩ ["k8s-events"])
    ∧ getChannelsToNotifyForEvent
        [("A", ⟨"A", "", true, ⟨["k8s-events"], []⟩⟩),
         ("B", ⟨"B", "", false, ⟨["k8s-events"], []⟩⟩)]
        ⟨"X", ""⟩ ["k8s-events"] = ["X"] := by
  refine ⟨?_, ?_, ?_⟩
  · exact ((getChannelsToNotifyForEvent_spec
        [("A", ⟨"A", "", true, ⟨["k8s-events"], []⟩⟩),
         ("B", ⟨"B", "", false, ⟨["k8s-events"], []⟩⟩)]
        ⟨"", ""⟩ ["k8s-events"]).2 rfl "A").mpr (by decide)
  · intro hmem
    exact absurd (((getChannelsToNotifyForEvent_spec
        [("A", ⟨"A", "", true, ⟨["k8s-events"], []⟩⟩),
         ("B", ⟨"B", "", false, ⟨["k8s-events"], []⟩⟩)]
        ⟨"", ""⟩ ["k8s-events"]).2 rfl "B").mp hmem) (by decide)
  · exact (getChannelsToNotifyForEvent_spec
        [("A", ⟨"A", "", true, ⟨["k8s-events"], []⟩⟩),
         ("B", ⟨"B", "", false, ⟨["k8s-events"], []⟩⟩)]
        ⟨"X", ""⟩ ["k8s-events"]).1 (by decide)

/-- Claim C3: `SetNotificationsEnabled` returns an error exactly when the
channel name is not a key of the registry; on that error the registry is
unchanged, and when the name is present the call succeeds. -/
theorem setNotificationsEnabled_error_iff_missing (reg : Registry)
    (channelName : String) (enabled : Bool) :
    ((setNotificationsEnabled reg channelName enabled).1
        = Except.error errNotificationsNotConfigured
      ↔ lookupChannel reg channelName = none)
    ∧ (lookupChannel reg channelName = none →
        (setNotificationsEnabled reg channelName enabled).2 = reg)
    ∧ (lookupChannel reg channelName ≠ none →
        (setNotificationsEnabled reg channelName enabled).1 = Except.ok ()) := by
  cases h : lookupChannel reg channelName <;>
    simp [setNotificationsEnabled, h]

/-- Witness for claim C3 at a one-channel registry: toggling the missing
channel `nope` errors and leaves the registry intact; toggling the present
channel `general` succeeds. -/
theorem setNotificationsEnabled_error_iff_missing_witness :
    (setNotificationsEnabled [("general", ⟨"general", "", false, ⟨[], []⟩⟩)]
        "nope" true).1 = Except.error errNotificationsNotConfigured
    ∧ (setNotificationsEnabled [("general", ⟨"general", "", false, ⟨[], []⟩⟩)]
        "nope" true).2 = [("general", ⟨"general", "", false, ⟨[], []⟩⟩)]
    ∧ (setNotificationsEnabled [("general", ⟨"general", "", false, ⟨[], []⟩⟩)]
        "general" true).1 = Except.ok () :=
  ⟨(setNotificationsEnabled_error_iff_missing
      [("general", ⟨"general", "", false, ⟨[], []⟩⟩)] "nope" true).1.mpr
      (by decide),
   (setNotificationsEnabled_error_iff_missing
      [("general", ⟨"general", "", false, ⟨[], []⟩⟩)] "nope" true).2.1
      (by decide),
   (setNotificationsEnabled_error_iff_missing
      [("general", ⟨"general", "", false, ⟨[], []⟩⟩)] "general" true).2.2
      (by decide)⟩

/-- Claim C4: a successful `SetNotificationsEnabled` changes only the
`notify` field of the named entry, which afterwards equals `enabled` (so
`NotificationsEnabled` then returns `enabled`); every other field of that
entry and every other entry are unchanged, the registry keeps its size,
and an enable-then-disable sequence leaves the channel disabled. -/
theorem setNotificationsEnabled_frame (reg : Registry) (channelName : String)
    (enabled : Bool) (ch : ChannelConfigByName)
    (h : lookupChannel reg channelName = some ch) :
    lookupChannel (setNotificationsEnabled reg channelName enabled).2
        channelName = some { ch with notify := enabled }
    ∧ notificationsEnabled (setNotificationsEnabled reg channelName enabled).2
        channelName = enabled
    ∧ (∀ other, other ≠ channelName →
        lookupChannel (setNotificationsEnabled reg channelName enabled).2 other
          = lookupChannel reg other)
    ∧ ((setNotificationsEnabled reg channelName enabled).2).length = reg.length
    ∧ notificationsEnabled
        (setNotificationsEnabled
          (setNotificationsEnabled reg channelName true).2 channelName
          false).2 channelName = false := by
  have hset : ∀ e, (setNotificationsEnabled reg channelName e).2
      = updateNotify reg channelName e := by
    intro e
    simp [setNotificationsEnabled, h]
  have hlook : ∀ e, lookupChannel (updateNotify reg channelName e) channelName
      = some { ch with notify := e } := by
    intro e
    rw [lookup_updateNotify_same, h]
    rfl
  refine ⟨?_, ?_, ?_, ?_, ?_⟩
  · rw [hset, hlook]
  · rw [hset]
    simp [notificationsEnabled, hlook]
  · intro other hne
    rw [hset, lookup_updateNotify_other _ _ _ _ hne]
  · rw [hset]
    simp [updateNotify]
  · have h2 : (setNotificationsEnabled (updateNotify reg channelName true)
        channelName false).2
        = updateNotify (updateNotify reg channelName true) channelName false := by
      simp [setNotificationsEnabled, hlook]
    rw [hset, h2]
    simp [notificationsEnabled, lookup_updateNotify_same, hlook]

/-- Witness for claim C4 at a one-channel registry: enabling `general`
makes `NotificationsEnabled` read true, and enable-then-disable leaves it
disabled. -/
theorem setNotificationsEnabled_frame_witness :
    lookupChannel [("general", ⟨"general", "", false, ⟨[], []⟩⟩)] "general"
        = some ⟨"general", "", false, ⟨[], []⟩⟩
    ∧ notificationsEnabled
        (setNotificationsEnabled
          [("general", ⟨"general", "", false, ⟨[], []⟩⟩)] "general" true).2
        "general" = true
    ∧ notificationsEnabled
        (setNotificationsEnabled
          (setNotificationsEnabled
            [("general", ⟨"general", "", false, ⟨[], []⟩⟩)] "general" true).2
          "general" false).2 "general" = false :=
  ⟨by decide,
   (setNotificationsEnabled_frame
      [("general", ⟨"general", "", false, ⟨[], []⟩⟩)] "general" true
      ⟨"general", "", false, ⟨[], []⟩⟩ (by decide)).2.1,
   (setNotificationsEnabled_frame
      [("general", ⟨"general", "", false, ⟨[], []⟩⟩)] "general" true
      ⟨"general", "", false, ⟨[], []⟩⟩ (by decide)).2.2.2.2⟩

/-- Claim C10: `NotificationsEnabled` on a channel name that is not in the
registry returns false; the query is a total function over channel names
and an unconfigured channel reads as notifications-disabled. -/
theorem notificationsEnabled_absent_false (reg : Registry)
    (channelName : String) (h : lookupChannel reg channelName = none) :
    notificationsEnabled reg channelName = false := by
  simp [notificationsEnabled, h]

/-- Witness for claim C10: the unconfigured channel `ghost` reads as
disabled in a registry holding only `general`. -/
theorem notificationsEnabled_absent_false_witness :
    lookupChannel [("general", ⟨"general", "", true, ⟨[], []⟩⟩)] "ghost" = none
    ∧ notificationsEnabled
        [("general", ⟨"general", "", true, ⟨[], []⟩⟩)] "ghost" = false :=
  ⟨by decide,
   notificationsEnabled_absent_false
     [("general", ⟨"general", "", true, ⟨[], []⟩⟩)] "ghost" (by decide)⟩

/-- Claim C2: the resolver follows the fixed per-kind table — multi-select:
actionID, a space, and the comma-joined selected values with origin
MultiSelectChange; single-select: actionID, a space, and the selected value
with origin SelectChange; button: the literal value with origin
ButtonClick; plain-text input: blockID immediately followed by the quoted
trimmed value with origin PlainTextInput; any unrecognized kind: the raw
value unchanged with origin Unknown. -/
theorem resolveBlockActionCommand_table (act : BlockAction) :
    (act.typeTag = "multi_static_select" →
      resolveBlockActionCommand act
        = (act.actionID ++ " "
             ++ String.intercalate "," (act.selectedOptions.map (·.value)),
           Origin.multiSelectChange))
    ∧ (act.typeTag = "static_select" →
      resolveBlockActionCommand act
        = (act.actionID ++ " " ++ act.selectedOption.value,
           Origin.selectChange))
    ∧ (act.typeTag = "button" →
      resolveBlockActionCommand act = (act.value, Origin.buttonClick))
    ∧ (act.typeTag = "plain_text_input" →
      resolveBlockActionCommand act
        = (act.blockID ++ goQuote act.value.trim, Origin.plainTextInput))
    ∧ (act.typeTag ≠ "multi_static_select" → act.typeTag ≠ "static_select" →
       act.typeTag ≠ "button" → act.typeTag ≠ "plain_text_input" →
      resolveBlockActionCommand act = (act.value, Origin.unknown)) := by
  refine ⟨?_, ?_, ?_, ?_, ?_⟩ <;>
    intro h <;>
    simp [resolveBlockActionCommand, h]
  intro h2 h3 h4
  simp [h2, h3, h4]

/-- Witness for claim C2, instantiating the spec's example: a multi-select
payload with action id `ns` and selected values default and kube-system
resolves to the command `ns default,kube-system` with origin
MultiSelectChange, and an unrecognized kind keeps its raw value with
origin Unknown. -/
theorem resolveBlockActionCommand_table_witness :
    resolveBlockActionCommand
        ⟨"multi_static_select", "ns", "blk", "raw",
         [⟨"default"⟩, ⟨"kube-system"⟩], ⟨""⟩⟩
      = ("ns default,kube-system", Origin.multiSelectChange)
    ∧ resolveBlockActionCommand
        ⟨"overflow", "act", "blk", "raw", [], ⟨""⟩⟩
      = ("raw", Origin.unknown) :=
  ⟨Eq.trans
     ((resolveBlockActionCommand_table
        ⟨"multi_static_select", "ns", "blk", "raw",
         [⟨"default"⟩, ⟨"kube-system"⟩], ⟨""⟩⟩).1 rfl)
     (by decide),
   (resolveBlockActionCommand_table
      ⟨"overflow", "act", "blk", "raw", [], ⟨""⟩⟩).2.2.2.2
     (by decide) (by decide) (by decide) (by decide)⟩

theorem count_filterMap_if (P : String → Bool) (mk : String → Report)
    (hmk : ∀ a b, mk a = mk b → a = b) (l : List String) (name : String) :
    (l.filterMap fun a => if P a then none else some (mk a)).count (mk name)
      = if P name then 0 else l.count name := by
  induction l with
  | nil => simp
  | cons a t ih =>
      rw [List.filterMap_cons]
      by_cases hP : P a = true
      · rw [if_pos hP, ih]
        by_cases hn : a = name
        · subst hn
          simp [hP]
        · simp [List.count_cons, Ne.symm hn]
      · rw [if_neg hP, List.count_cons, ih]
        by_cases hn : a = name
        · subst hn
          simp [hP, List.count_cons]
        · have hmm : mk name ≠ mk a := fun hc => hn ((hmk _ _ hc).symm)
          simp [List.count_cons, Ne.symm hn, hmm, Ne.symm hmm]

theorem tag_of_mem_validateSourceBindings (sources bindings : List String)
    (r : Report) (h : r ∈ validateSourceBindings sources bindings) :
    r.tag = invalidBindingTag := by
  rw [validateSourceBindings, List.mem_filterMap] at h
  rcases h with ⟨a, -, hf⟩
  split at hf
  · exact absurd hf (by simp)
  · cases Option.some.inj hf
    rfl

theorem tag_of_mem_validateExecutorBindings (executors bindings : List String)
    (r : Report) (h : r ∈ validateExecutorBindings executors bindings) :
    r.tag = invalidBindingTag := by
  rw [validateExecutorBindings, List.mem_filterMap] at h
  rcases h with ⟨a, -, hf⟩
  split at hf
  · exact absurd hf (by simp)
  · cases Option.some.inj hf
    rfl

theorem partition_all_criticals (errs : List Report)
    (h : ∀ r ∈ errs, warnsOnlyTags.contains r.tag = false) :
    partitionReports errs = ⟨errs, []⟩ := by
  unfold partitionReports
  have h1 : List.filter (fun e => !warnsOnlyTags.contains e.tag) errs = errs :=
    List.filter_eq_self.mpr fun r hr => by simpa using h r hr
  have h2 : List.filter (fun e => warnsOnlyTags.contains e.tag) errs = [] := by
    rw [List.filter_eq_nil_iff]
    intro r hr
    simpa using h r hr
  rw [h1, h2]

/-- Claim C5: validation reports exactly one critical `invalid_binding`
error per offending bound name occurrence — for sources against the global
sources mapping and for executors against the global executors mapping —
without short-circuiting, and names present in the corresponding mapping
yield none; the reported errors are all routed to the criticals, never to
the warnings. -/
theorem bindingValidators_one_critical_per_offending_name
    (sources executors bindings : List String) (name : String) :
    ((validateSourceBindings sources bindings).count
        ⟨name, invalidBindingTag, "Config.Sources"⟩
      = if sources.contains name then 0 else bindings.count name)
    ∧ ((validateExecutorBindings executors bindings).count
        ⟨name, invalidBindingTag, "Config.Executors"⟩
      = if executors.contains name then 0 else bindings.count name)
    ∧ partitionReports (validateSourceBindings sources bindings)
        = ⟨validateSourceBindings sources bindings, []⟩
    ∧ partitionReports (validateExecutorBindings executors bindings)
        = ⟨validateExecutorBindings executors bindings, []⟩ := by
  refine ⟨?_, ?_, ?_, ?_⟩
  · exact count_filterMap_if (fun a => sources.contains a)
      (fun a => ⟨a, invalidBindingTag, "Config.Sources"⟩)
      (fun a b hab => congrArg Report.field hab) bindings name
  · exact count_filterMap_if (fun a => executors.contains a)
      (fun a => ⟨a, invalidBindingTag, "Config.Executors"⟩)
      (fun a b hab => congrArg Report.field hab) bindings name
  · refine partition_all_criticals _ fun r hr => ?_
    rw [tag_of_mem_validateSourceBindings sources bindings r hr]
    rfl
  · refine partition_all_criticals _ fun r hr => ?_
    rw [tag_of_mem_validateExecutorBindings executors bindings r hr]
    rfl

/-- Witness for claim C5: with the only declared source and executor named
s1, the binding list listing s1 once and the undeclared name bad twice
yields two critical invalid-binding errors for bad and none for s1, all
routed to the criticals. -/
theorem bindingValidators_one_critical_per_offending_name_witness :
    (validateSourceBindings ["s1"] ["s1", "bad", "bad"]).count
        ⟨"bad", invalidBindingTag, "Config.Sources"⟩ = 2
    ∧ (validateSourceBindings ["s1"] ["s1", "bad", "bad"]).count
        ⟨"s1", invalidBindingTag, "Config.Sources"⟩ = 0
    ∧ (validateExecutorBindings ["s1"] ["s1", "bad", "bad"]).count
        ⟨"bad", invalidBindingTag, "Config.Executors"⟩ = 2
    ∧ partitionReports (validateSourceBindings ["s1"] ["s1", "bad", "bad"])
        = ⟨validateSourceBindings ["s1"] ["s1", "bad", "bad"], []⟩ :=
  ⟨(bindingValidators_one_critical_per_offending_name
      ["s1"] ["s1"] ["s1", "bad", "bad"] "bad").1.trans (by decide),
   (bindingValidators_one_critical_per_offending_name
      ["s1"] ["s1"] ["s1", "bad", "bad"] "s1").1.trans (by decide),
   (bindingValidators_one_critical_per_offending_name
      ["s1"] ["s1"] ["s1", "bad", "bad"] "bad").2.1.trans (by decide),
   (bindingValidators_one_critical_per_offending_name
      ["s1"] ["s1"] ["s1", "bad", "bad"] "bad").2.2.1⟩

/-- Claim C6: a namespace-include list of length at least two containing
the all-namespaces indicator yields exactly one `ns-include-regex` report;
a shorter list (including a lone all-namespaces entry) or a list without
the indicator yields none, and the report is routed to the warnings,
never to the criticals. -/
theorem namespacesStructValidator_warning (ns : List String) :
    (2 ≤ ns.length → ns.contains AllNamespaceIndicator = true →
      namespacesStructValidator ns = [⟨"Include", nsIncludeTag, ""⟩])
    ∧ (ns.length < 2 → namespacesStructValidator ns = [])
    ∧ (ns.contains AllNamespaceIndicator = false →
      namespacesStructValidator ns = [])
    ∧ partitionReports (namespacesStructValidator ns)
        = ⟨[], namespacesStructValidator ns⟩ := by
  refine ⟨?_, ?_, ?_, ?_⟩
  · intro h1 h2
    rw [namespacesStructValidator, if_neg (Nat.not_lt.mpr h1), if_pos h2]
  · intro h
    rw [namespacesStructValidator, if_pos h]
  · intro h
    rw [namespacesStructValidator]
    split
    · rfl
    · have hc : ¬ (ns.contains AllNamespaceIndicator = true) := by
        rw [h]
        simp
      rw [if_neg hc]
  · unfold namespacesStructValidator
    split
    · decide
    · split <;> decide

/-- Witness for claim C6: a two-entry list with the indicator yields the
single warning-routed report, a lone indicator yields none, and a
two-entry list without the indicator yields none. -/
theorem namespacesStructValidator_warning_witness :
    namespacesStructValidator ["all", "default"]
        = [⟨"Include", nsIncludeTag, ""⟩]
    ∧ namespacesStructValidator ["all"] = []
    ∧ namespacesStructValidator ["default", "kube-system"] = []
    ∧ partitionReports (namespacesStructValidator ["all", "default"])
        = ⟨[], namespacesStructValidator ["all", "default"]⟩ :=
  ⟨(namespacesStructValidator_warning ["all", "default"]).1
      (by decide) (by decide),
   (namespacesStructValidator_warning ["all"]).2.1 (by decide),
   (namespacesStructValidator_warning ["default", "kube-system"]).2.2.1
      (by decide),
   (namespacesStructValidator_warning ["all", "default"]).2.2.2⟩

/-- Counterexample for claim C7: the claim that one violating field
condition produces exactly one reported error fails on the code — an
enabled socket-slack integration with an empty bot token (and a
well-formed app token) produces two reported errors for the BotToken
field, a required error and a wrong-prefix error, because
`socketSlackStructTokenValidator` does not return early after the
emptiness check. -/
theorem socketSlack_missing_token_two_reports :
    (socketSlackStructTokenValidator ⟨true, "xapp-1", ""⟩).countP
        (fun r => r.field == "BotToken") = 2
    ∧ socketSlackStructTokenValidator ⟨true, "xapp-1", ""⟩
        = [⟨"BotToken", "required", ""⟩,
           ⟨"BotToken", "invalid_slack_token", botTokenMsg⟩] := by
  constructor <;> decide

theorem count_partition_split (p : Report → Bool) (l : List Report)
    (r : Report) :
    (l.filter fun e => !p e).count r + (l.filter p).count r = l.count r := by
  induction l with
  | nil => rfl
  | cons a t ih =>
      by_cases hr : r = a
      · subst hr
        cases hp : p r
        · simp [List.filter_cons, hp, List.count_cons]
          exact List.count_eq_zero.mpr fun hmem => by
            simp [List.mem_filter, hp] at hmem
        · simp [List.filter_cons, hp, List.count_cons]
          exact List.count_eq_zero.mpr fun hmem => by
            simp [List.mem_filter, hp] at hmem
      · cases hp : p a <;>
          simp [List.filter_cons, hp, List.count_cons, hr] <;> omega

/-- Claim C7 (amended): the Criticals and Warnings result sets are
disjoint and each reported error carries one tag and is routed by it to
exactly one of the two sets, with every reported error collected; however
a single violating condition can produce more than one reported error: an
enabled socket integration with an empty bot token yields two BotToken
errors (required and wrong-prefix), while a non-empty wrong-prefixed bot
token yields exactly one and a well-prefixed one yields none. -/
theorem validateStruct_partition_amended (errs : List Report)
    (s : SocketSlack) :
    (∀ r, r ∈ (partitionReports errs).criticals →
        r ∈ (partitionReports errs).warnings → False)
    ∧ (∀ r, (partitionReports errs).criticals.count r
        + (partitionReports errs).warnings.count r = errs.count r)
    ∧ (s.enabled = true → s.botToken = "" →
        (socketSlackStructTokenValidator s).countP
          (fun r => r.field == "BotToken") = 2)
    ∧ (s.enabled = true → s.botToken ≠ "" →
        hasPrefixStr s.botToken botTokenPrefixV = false →
        (socketSlackStructTokenValidator s).countP
          (fun r => r.field == "BotToken") = 1)
    ∧ (hasPrefixStr s.botToken botTokenPrefixV = true →
        (socketSlackStructTokenValidator s).countP
          (fun r => r.field == "BotToken") = 0) := by
  refine ⟨?_, ?_, ?_, ?_, ?_⟩
  · intro r hc hw
    rw [partitionReports] at hc hw
    simp only [List.mem_filter] at hc hw
    rw [hw.2] at hc
    exact absurd hc.2 (by simp)
  · intro r
    exact count_partition_split _ errs r
  · intro he hb
    simp [socketSlackStructTokenValidator, he, hb, List.countP_append,
      List.countP_cons, show hasPrefixStr "" botTokenPrefixV = false
        from by decide]
    split <;> split <;> simp
  · intro he hb hpre
    simp [socketSlackStructTokenValidator, he, hb, hpre,
      List.countP_append, List.countP_cons]
    split <;> split <;> simp
  · intro hpre
    have hb : s.botToken ≠ "" := by
      intro hc
      rw [hc] at hpre
      exact absurd hpre (by decide)
    cases he : s.enabled
    · simp [socketSlackStructTokenValidator, he]
    · simp [socketSlackStructTokenValidator, he, hb, hpre,
        List.countP_append, List.countP_cons]

/-- Witness for the amended claim C7: at a two-error report list the
counts split between criticals and warnings, and the concrete enabled
socket configuration with empty bot token yields the two BotToken
errors. -/
theorem validateStruct_partition_amended_witness :
    ((partitionReports
        [⟨"Include", nsIncludeTag, ""⟩,
         ⟨"x", invalidBindingTag, "Config.Sources"⟩]).criticals.count
          ⟨"Include", nsIncludeTag, ""⟩
      + (partitionReports
        [⟨"Include", nsIncludeTag, ""⟩,
         ⟨"x", invalidBindingTag, "Config.Sources"⟩]).warnings.count
          ⟨"Include", nsIncludeTag, ""⟩
      = ([⟨"Include", nsIncludeTag, ""⟩,
          ⟨"x", invalidBindingTag, "Config.Sources"⟩] : List Report).count
          ⟨"Include", nsIncludeTag, ""⟩)
    ∧ (socketSlackStructTokenValidator ⟨true, "", "xoxb-1"⟩).countP
        (fun r => r.field == "BotToken") = 0 :=
  ⟨(validateStruct_partition_amended
      [⟨"Include", nsIncludeTag, ""⟩,
       ⟨"x", invalidBindingTag, "Config.Sources"⟩]
      ⟨true, "", "xoxb-1"⟩).2.1 ⟨"Include", nsIncludeTag, ""⟩,
   (validateStruct_partition_amended
      [⟨"Include", nsIncludeTag, ""⟩,
       ⟨"x", invalidBindingTag, "Config.Sources"⟩]
      ⟨true, "", "xoxb-1"⟩).2.2.2.2 (by decide)⟩

/-- Claim C8: a rendering that reaches the size threshold is delivered
through the file-upload path and the posted message retains only the
plain-text-input elements of the original response, every other element
stripped to its zero value — including an oversized popup response with a
trigger id, which the code strips before the popup check and therefore
posts to the channel; a smaller rendering, whenever it is posted to the
channel rather than opened as a modal, is posted unchanged with all its
elements and no file upload. -/
theorem send_size_threshold (render : InteractiveMessage → String)
    (uploaded : SlackFile) (event : SocketSlackMessage)
    (resp : InteractiveMessage)
    (hne : (render resp).length ≠ 0) :
    (slackMaxMessageSize ≤ (render resp).length →
      (send render uploaded event resp).postedMessage
          = some { plaintextInputs := resp.plaintextInputs }
        ∧ (send render uploaded event resp).usedFileUpload = true)
    ∧ ((render resp).length < slackMaxMessageSize →
      ¬ (resp.msgType = MessageType.popup ∧ event.triggerID ≠ "") →
      (send render uploaded event resp).postedMessage = some resp
        ∧ (send render uploaded event resp).usedFileUpload = false) := by
  constructor
  · intro hbig
    simp [send, hne, hbig, SendOutcome.postedMessage,
      SendOutcome.usedFileUpload]
  · intro hsmall hnp
    have hnl : ¬ slackMaxMessageSize ≤ (render resp).length :=
      Nat.not_le.mpr hsmall
    cases hov : resp.onlyVisibleForYou <;>
      simp [send, hne, hnl, hnp, hov, SendOutcome.postedMessage,
        SendOutcome.usedFileUpload]

/-- Witness for claim C8: a renderer producing exactly the threshold
length forces the upload path and a posted message holding only the
plain-text inputs — also for a popup response with a trigger id, which is
stripped and posted rather than opened as a modal; a one-character
rendering posts the response intact. -/
theorem send_size_threshold_witness :
    (send (fun _ => String.mk (List.replicate slackMaxMessageSize 'a')) ⟨[]⟩
        {} { sections := ["sec"], plaintextInputs := ["inp"] }).postedMessage
      = some { plaintextInputs := ["inp"] }
    ∧ (send (fun _ => String.mk (List.replicate slackMaxMessageSize 'a')) ⟨[]⟩
        {} { sections := ["sec"], plaintextInputs := ["inp"] }).usedFileUpload
      = true
    ∧ (send (fun _ => String.mk (List.replicate slackMaxMessageSize 'a')) ⟨[]⟩
        { triggerID := "T" }
        { msgType := MessageType.popup,
          plaintextInputs := ["inp"] }).postedMessage
      = some { plaintextInputs := ["inp"] }
    ∧ (send (fun _ => String.mk (List.replicate slackMaxMessageSize 'a')) ⟨[]⟩
        { triggerID := "T" }
        { msgType := MessageType.popup,
          plaintextInputs := ["inp"] }).usedFileUpload
      = true
    ∧ (send (fun _ => "a") ⟨[]⟩
        {} { sections := ["sec"], plaintextInputs := ["inp"] }).postedMessage
      = some { sections := ["sec"], plaintextInputs := ["inp"] }
    ∧ (send (fun _ => "a") ⟨[]⟩
        {} { sections := ["sec"], plaintextInputs := ["inp"] }).usedFileUpload
      = false := by
  have hlen : (String.mk (List.replicate slackMaxMessageSize 'a')).length
      = slackMaxMessageSize := by
    simp [String.length]
  have hbig := (send_size_threshold
      (fun _ => String.mk (List.replicate slackMaxMessageSize 'a')) ⟨[]⟩ {}
      { sections := ["sec"], plaintextInputs := ["inp"] }
      (by
        show (String.mk (List.replicate slackMaxMessageSize 'a')).length ≠ 0
        rw [hlen]
        decide)).1
      (by
        show slackMaxMessageSize
          ≤ (String.mk (List.replicate slackMaxMessageSize 'a')).length
        rw [hlen])
  have hpopup := (send_size_threshold
      (fun _ => String.mk (List.replicate slackMaxMessageSize 'a')) ⟨[]⟩
      { triggerID := "T" }
      { msgType := MessageType.popup, plaintextInputs := ["inp"] }
      (by
        show (String.mk (List.replicate slackMaxMessageSize 'a')).length ≠ 0
        rw [hlen]
        decide)).1
      (by
        show slackMaxMessageSize
          ≤ (String.mk (List.replicate slackMaxMessageSize 'a')).length
        rw [hlen])
  have hsmall := (send_size_threshold (fun _ => "a") ⟨[]⟩ {}
      { sections := ["sec"], plaintextInputs := ["inp"] }
      (by decide)).2 (by decide) (by simp)
  exact ⟨hbig.1, hbig.2, hpopup.1, hpopup.2, hsmall.1, hsmall.2⟩

/-- Counterexample for claim C9: with two public shares carrying
timestamps 200 and 100 in iteration order, the code targets 200 — the
first share in map-iteration order — whereas the earliest non-empty share
timestamp is 100. -/
theorem getThreadOptionIfNeeded_not_earliest :
    specEarliestPublicShareTs ⟨[("C1", [⟨"200"⟩]), ("C2", [⟨"100"⟩])]⟩
        = some "100"
    ∧ getThreadOptionIfNeeded {}
        (some ⟨[("C1", [⟨"200"⟩]), ("C2", [⟨"100"⟩])]⟩) = some "200"
    ∧ some "100" ≠ some "200" := by
  refine ⟨by decide, by decide, by decide⟩

theorem findSome?_eq_head?_filterMap {α β : Type} (f : α → Option β)
    (l : List α) :
    l.findSome? f = (l.filterMap f).head? := by
  induction l with
  | nil => rfl
  | cons a t ih =>
      rw [List.findSome?_cons, List.filterMap_cons]
      cases h : f a
      · exact ih
      · rfl

/-- Claim C9 (amended): thread-target priority — a non-empty thread
timestamp on the originating message wins; otherwise, when the content was
delivered as a file attachment, the response targets the first public
share in the file's share-map iteration order whose first share entry has
a non-empty timestamp (later entries of a share list are never examined
and iteration order, not earliest timestamp, decides); otherwise no
thread target is set and the response is a top-level channel post. -/
theorem getThreadOptionIfNeeded_priority (event : SocketSlackMessage)
    (file : Option SlackFile) :
    (event.threadTimeStamp ≠ "" →
      getThreadOptionIfNeeded event file = some event.threadTimeStamp)
    ∧ (event.threadTimeStamp = "" → file = none →
      getThreadOptionIfNeeded event file = none)
    ∧ (event.threadTimeStamp = "" → ∀ f, file = some f →
      getThreadOptionIfNeeded event file = firstPublicShareTs f) := by
  refine ⟨?_, ?_, ?_⟩
  · intro h
    rw [getThreadOptionIfNeeded.eq_def, if_pos h]
  · intro h hf
    subst hf
    rw [getThreadOptionIfNeeded.eq_def, if_neg (by simp [h])]
  · intro h f hf
    subst hf
    rw [getThreadOptionIfNeeded.eq_def, if_neg (by simp [h])]
    unfold firstPublicShareTs
    exact findSome?_eq_head?_filterMap _ _

/-- Witness for the amended claim C9: a threaded interaction targets its
thread timestamp, an unthreaded one without a file gets no target, and an
unthreaded one whose file's first iterated share has an empty-timestamp
first entry targets the next share in iteration order. -/
theorem getThreadOptionIfNeeded_priority_witness :
    getThreadOptionIfNeeded { threadTimeStamp := "333" } (some ⟨[]⟩)
        = some "333"
    ∧ getThreadOptionIfNeeded {} none = none
    ∧ getThreadOptionIfNeeded {}
        (some ⟨[("C1", [⟨""⟩, ⟨"50"⟩]), ("C2", [⟨"70"⟩])]⟩) = some "70" :=
  ⟨(getThreadOptionIfNeeded_priority { threadTimeStamp := "333" }
      (some ⟨[]⟩)).1 (by decide),
   (getThreadOptionIfNeeded_priority {} none).2.1 rfl rfl,
   Eq.trans
     ((getThreadOptionIfNeeded_priority {}
        (some ⟨[("C1", [⟨""⟩, ⟨"50"⟩]), ("C2", [⟨"70"⟩])]⟩)).2.2 rfl
        ⟨[("C1", [⟨""⟩, ⟨"50"⟩]), ("C2", [⟨"70"⟩])]⟩ rfl)
     (by decide)⟩

end Botkube
